import Mathlib

/-!
Shallow embedding of `src/media/js/base/mozilla-traffic-cop.js`
(Mozilla.TrafficCop, the A/B/x traffic redirector) and proofs about it.

Modelling conventions:
* A config is the pair stored by the constructor: `id` (absent or a string;
  the source also rejects non-string ids, which this model folds into the
  absent case) and `variations`, a JavaScript object literal modelled as an
  association list in insertion order, with integer percentage weights
  (the data model of the component declares integer weights).
* `totalPercentage` is the sum computed by the constructor loop.
* The cookie collaborator `Mozilla.Cookies` is an association list from
  cookie name to value; `hasItem` and `getItem` are `List.lookup`.
* `Math.floor(Math.random() * 100) + 1` is modelled by passing the drawn
  number `rando` as an explicit argument.
* JavaScript truthiness: a string is truthy iff nonempty; an integer is
  truthy iff nonzero; `undefined` (modelled as `none`) is falsy.
* `window` state (cookies, location href, location search, the optional
  `_dntEnabled` predicate) is a `World`; `init` is given as the list of its
  observable effects (`setItem` calls and navigations) plus the state
  transformer obtained by applying them.
-/

namespace TrafficCop

/-- Cookie store of the `Mozilla.Cookies` collaborator: an association list
from cookie name to cookie value; lookup returns the first binding. -/
abbrev CookieStore := List (String × String)

/-- Model of `Mozilla.Cookies.setItem`: the new binding shadows any previous
binding for the same key. -/
def setItem (cs : CookieStore) (k v : String) : CookieStore :=
  (k, v) :: cs

/-- Configuration stored by the `Mozilla.TrafficCop` constructor: `this.id`
and `this.variations`. -/
structure Config where
  id : Option String
  variations : List (String × Int)
deriving DecidableEq, Repr

/-- Constructor loop summing the numeric variation weights into
`this.totalPercentage`. -/
def totalPercentage (c : Config) : Int :=
  (c.variations.map Prod.snd).sum

/-- The constant `Mozilla.TrafficCop.noVariationCookieValue`. -/
def noVariationCookieValue : String := "novariation"

/-- JavaScript truthiness of an optional string value (`undefined` and the
empty string are falsy). -/
def strTruthy : Option String → Bool
  | some s => s != ""
  | none => false

/-- JavaScript truthiness of the member access `this.variations[k]`: the key
is present and its weight is nonzero. -/
def varTruthy (c : Config) (k : String) : Bool :=
  match c.variations.lookup k with
  | some w => w != 0
  | none => false

/-- Cookie key used by the source (`this.id`); an absent id would coerce to
the string "undefined" in the cookie layer. -/
def cookieKey (c : Config) : String :=
  c.id.getD "undefined"

/-- Model of `Mozilla.TrafficCop.prototype.verifyConfig`. -/
def verifyConfig (c : Config) : Bool :=
  if !(strTruthy c.id) then false
  else if totalPercentage c == 0 || decide (totalPercentage c > 100) then false
  else true

/-- Model of `queryString.indexOf(needle) > -1` from the source: substring
containment, stated on the character lists of the two strings. -/
def containsSubstring (hay needle : String) : Bool :=
  decide (needle.data <:+: hay.data)

/-- Model of `Mozilla.TrafficCop.prototype.isVariation`: some variation key,
preceded by a question mark or an ampersand, occurs in the query string. -/
def isVariation (c : Config) (queryString : String) : Bool :=
  c.variations.any (fun p =>
    containsSubstring queryString ("?" ++ p.1) ||
    containsSubstring queryString ("&" ++ p.1))

/-- The fresh-assignment loop of `generateRedirectUrl`: walk the variations
in insertion order keeping a running total, stopping at the first variation
whose cumulative upper bound reaches the drawn number. -/
def assignVariation : List (String × Int) → Int → Int → Option String
  | [], _, _ => none
  | (v, w) :: rest, rando, runningTotal =>
    if rando ≤ w + runningTotal then some v
    else assignVariation rest rando (runningTotal + w)

/-- URL construction step of `generateRedirectUrl`: append the variation to
a nonempty query string with an ampersand, otherwise start one. -/
def buildRedirect (url querystring rv : String) : String :=
  if querystring != "" then url ++ querystring ++ "&" ++ rv
  else url ++ "?" ++ rv

/-- Final step of `generateRedirectUrl`: build the redirect only when
`this.redirectVariation` is truthy; return the pair (returned value,
`this.redirectVariation` field after the call). -/
def finishRedirect (url querystring : String) (rv : Option String) :
    Option String × Option String :=
  if strTruthy rv then (some (buildRedirect url querystring (rv.getD "")), rv)
  else (none, rv)

/-- Model of `Mozilla.TrafficCop.prototype.generateRedirectUrl` on a fresh
instance (`this.redirectVariation` still undefined). Returns the pair of the
JavaScript return value (`none` for `undefined`) and the
`this.redirectVariation` field after the call. -/
def generateRedirectUrl (c : Config) (cookies : CookieStore) (rando : Int)
    (url querystring : String) : Option String × Option String :=
  match cookies.lookup (cookieKey c) with
  | some stored =>
    if varTruthy c stored then
      finishRedirect url querystring (some stored)
    else if stored == noVariationCookieValue then
      (some noVariationCookieValue, none)
    else
      finishRedirect url querystring none
  | none =>
    if decide (rando ≤ totalPercentage c) then
      finishRedirect url querystring (assignVariation c.variations rando 0)
    else
      finishRedirect url querystring none

/-- Browser-visible state read and written by `init`: the cookie store, the
location href, the location search string, and the optional do-not-track
predicate (`none` when `window._dntEnabled` is not a function). -/
structure World where
  cookies : CookieStore
  href : String
  search : String
  dnt : Option Bool
deriving DecidableEq, Repr

/-- Observable side effects of `init`: `Mozilla.Cookies.setItem` calls and
assignments to `window.location.href`. -/
inductive Event where
  | setCookie (key value : String)
  | navigate (url : String)
deriving DecidableEq, Repr

/-- Model of `Mozilla.TrafficCop.prototype.init`, as the list of its side
effects in order. The drawn random number is the explicit `rando`. -/
def initEvents (c : Config) (w : World) (rando : Int) : List Event :=
  if w.dnt == some true then []
  else if verifyConfig c then
    if !(isVariation c w.search) then
      let res := generateRedirectUrl c w.cookies rando w.href w.search
      if strTruthy res.fst then
        if res.fst != some noVariationCookieValue then
          [Event.setCookie (cookieKey c) (res.snd.getD "undefined"),
           Event.navigate (res.fst.getD "")]
        else []
      else
        [Event.setCookie (cookieKey c) noVariationCookieValue]
    else []
  else []

/-- Effect of a single event on the browser state. -/
def applyEvent (w : World) : Event → World
  | Event.setCookie k v => { w with cookies := setItem w.cookies k v }
  | Event.navigate u => { w with href := u }

/-- State transformer of `init`: run its effects on the world. -/
def init (c : Config) (w : World) (rando : Int) : World :=
  (initEvents c w rando).foldl applyEvent w

/-- The example experiment used by the concrete scenarios of the design
document. -/
def exp1 : Config :=
  { id := some "exp1", variations := [("v=1", 25), ("v=2", 25)] }

/-- Valid config in which one variation key carries weight zero. -/
def zeroWeightConfig : Config :=
  { id := some "exp1", variations := [("v=1", 0), ("v=2", 50)] }

/-- Valid config in which the no-variation sentinel string is itself a
variation key with nonzero weight. -/
def sentinelKeyConfig : Config :=
  { id := some "exp1", variations := [("novariation", 50)] }

/-- Config whose single weight is negative. -/
def negativeWeightConfig : Config :=
  { id := some "exp1", variations := [("v=1", -5)] }

/-- Config whose id is the empty string. -/
def emptyIdConfig : Config :=
  { id := some "", variations := [("v=1", 50)] }

/-- Valid config in which the sentinel string is a variation key with weight
zero. -/
def zeroSentinelConfig : Config :=
  { id := some "exp1", variations := [("novariation", 0), ("v=2", 50)] }

/-- Sum of the weights of a variation list (running-total arithmetic). -/
def sumWeights (l : List (String × Int)) : Int :=
  (l.map Prod.snd).sum

/-- Specification-side description of the fresh draw: `v` is the first
variation in insertion order whose cumulative upper bound (running total of
the earlier weights plus its own weight) reaches the drawn number `r`. -/
def FirstCumHit (vars : List (String × Int)) (r : Int) (v : String) : Prop :=
  ∃ pre w suf, vars = pre ++ (v, w) :: suf ∧ r ≤ sumWeights pre + w ∧
    ∀ pre2 v2 w2 suf2, pre = pre2 ++ (v2, w2) :: suf2 →
      sumWeights pre2 + w2 < r

example : verifyConfig exp1 = true := by decide

example : generateRedirectUrl exp1 [] 10 "http://t" "" =
    (some "http://t?v=1", some "v=1") := by decide

example : generateRedirectUrl exp1 [] 30 "http://t" "" =
    (some "http://t?v=2", some "v=2") := by decide

example : generateRedirectUrl exp1 [] 80 "http://t" "" = (none, none) := by
  decide

example : generateRedirectUrl exp1 [("exp1", "garbage")] 10 "http://t" "" =
    (none, none) := by decide

example : initEvents exp1 ⟨[], "http://t", "", some false⟩ 80 =
    [Event.setCookie "exp1" "novariation"] := by decide

example : initEvents exp1 ⟨[("exp1", "novariation")], "http://t", "", none⟩ 10 =
    [] := by decide

/-- The redirectVariation component returned by the final step equals the
variation that reached it. -/
theorem finishRedirect_snd (url qs : String) (rv : Option String) :
    (finishRedirect url qs rv).snd = rv := by
  unfold finishRedirect
  split <;> rfl

/-- Reduction of `generateRedirectUrl` when a cookie for the experiment id is
present. -/
theorem generateRedirectUrl_cookie (c : Config) (cookies : CookieStore)
    (rando : Int) (url qs stored : String)
    (hs : cookies.lookup (cookieKey c) = some stored) :
    generateRedirectUrl c cookies rando url qs =
      (if varTruthy c stored then finishRedirect url qs (some stored)
       else if stored == noVariationCookieValue then
         (some noVariationCookieValue, none)
       else finishRedirect url qs none) := by
  unfold generateRedirectUrl
  rw [hs]

/-- Reduction of `generateRedirectUrl` when no cookie for the experiment id
is present. -/
theorem generateRedirectUrl_nocookie (c : Config) (cookies : CookieStore)
    (rando : Int) (url qs : String)
    (hs : cookies.lookup (cookieKey c) = none) :
    generateRedirectUrl c cookies rando url qs =
      (if decide (rando ≤ totalPercentage c) then
         finishRedirect url qs (assignVariation c.variations rando 0)
       else finishRedirect url qs none) := by
  unfold generateRedirectUrl
  rw [hs]

/-- A stored cookie value that is neither a truthy variations entry nor the
sentinel makes `generateRedirectUrl` return undefined with no variation
chosen, whatever the draw. -/
theorem generateRedirectUrl_stale (c : Config) (cookies : CookieStore)
    (rando : Int) (url qs stored : String)
    (hs : cookies.lookup (cookieKey c) = some stored)
    (hv : varTruthy c stored = false)
    (hnv : stored ≠ noVariationCookieValue) :
    generateRedirectUrl c cookies rando url qs = (none, none) := by
  rw [generateRedirectUrl_cookie c cookies rando url qs stored hs]
  simp [hv, hnv, finishRedirect, strTruthy]

/-- Reduction of `initEvents` on a load that reaches the dice-roll call:
do-not-track is off, the config verifies, and the current page is not a
variation page. -/
theorem initEvents_active (c : Config) (w : World) (rando : Int)
    (hd : w.dnt ≠ some true) (hv : verifyConfig c = true)
    (hq : isVariation c w.search = false) :
    initEvents c w rando =
      (let res := generateRedirectUrl c w.cookies rando w.href w.search
       if strTruthy res.fst then
         if res.fst != some noVariationCookieValue then
           [Event.setCookie (cookieKey c) (res.snd.getD "undefined"),
            Event.navigate (res.fst.getD "")]
         else []
       else [Event.setCookie (cookieKey c) noVariationCookieValue]) := by
  have hd2 : (w.dnt == some true) = false := beq_eq_false_iff_ne.mpr hd
  unfold initEvents
  rw [hd2, hv, hq]
  simp

/-- C1 (counterexample): with a stale cookie value the code does not fall
through to a fresh assignment: at draw 10 a fresh assignment would choose
v=1 and yield a redirect URL, but with the stale cookie the call returns
undefined and chooses nothing. -/
theorem claim1_counterexample :
    verifyConfig exp1 = true ∧
    ([("exp1", "garbage")] : CookieStore).lookup (cookieKey exp1) =
      some "garbage" ∧
    exp1.variations.lookup "garbage" = none ∧
    "garbage" ≠ noVariationCookieValue ∧
    generateRedirectUrl exp1 [("exp1", "garbage")] 10 "http://t" "" =
      (none, none) ∧
    generateRedirectUrl exp1 [] 10 "http://t" "" =
      (some "http://t?v=1", some "v=1") :=
  ⟨by decide, by decide, by decide, by decide, by decide, by decide⟩

/-- C1 (amended): a stored cookie value that is neither a truthy variations
entry nor the sentinel is never redrawn: `generateRedirectUrl` returns
undefined with no variation chosen, for every draw, so the caller persists
the sentinel instead of re-running the dice roll. -/
theorem claim1_stale_cookie_no_redraw (c : Config) (cookies : CookieStore)
    (rando : Int) (url qs stored : String)
    (hs : cookies.lookup (cookieKey c) = some stored)
    (hv : varTruthy c stored = false)
    (hnv : stored ≠ noVariationCookieValue) :
    generateRedirectUrl c cookies rando url qs = (none, none) :=
  generateRedirectUrl_stale c cookies rando url qs stored hs hv hnv

/-- C1 witness: the amended statement evaluated on the stale-cookie
scenario. -/
theorem claim1_witness :
    ([("exp1", "garbage")] : CookieStore).lookup (cookieKey exp1) =
      some "garbage" ∧
    varTruthy exp1 "garbage" = false ∧
    ("garbage" : String) ≠ noVariationCookieValue ∧
    generateRedirectUrl exp1 [("exp1", "garbage")] 7 "http://u" "?a=1" =
      (none, none) :=
  ⟨by decide, by decide, by decide,
   claim1_stale_cookie_no_redraw exp1 [("exp1", "garbage")] 7 "http://u"
     "?a=1" "garbage" (by decide) (by decide) (by decide)⟩

/-- C2 (counterexample): at draw 80 `generateRedirectUrl` yields undefined,
yet `init` is not side-effect free: it writes the sentinel cookie. -/
theorem claim2_counterexample :
    (generateRedirectUrl exp1 [] 80 "http://t" "").fst = none ∧
    verifyConfig exp1 = true ∧
    (⟨[], "http://t", "", some false⟩ : World).dnt ≠ some true ∧
    isVariation exp1 "" = false ∧
    initEvents exp1 ⟨[], "http://t", "", some false⟩ 80 =
      [Event.setCookie "exp1" noVariationCookieValue] :=
  ⟨by decide, by decide, by decide, by decide, by decide⟩

/-- C2 (amended): on a DNT-off, valid-config, non-variation-page load on
which `generateRedirectUrl` yields undefined, `init` performs exactly one
`setItem` call, writing the sentinel under the experiment id, and does not
navigate. -/
theorem claim2_undefined_writes_sentinel (c : Config) (w : World)
    (rando : Int) (hd : w.dnt ≠ some true) (hv : verifyConfig c = true)
    (hq : isVariation c w.search = false)
    (hg : (generateRedirectUrl c w.cookies rando w.href w.search).fst =
      none) :
    initEvents c w rando =
      [Event.setCookie (cookieKey c) noVariationCookieValue] := by
  rw [initEvents_active c w rando hd hv hq]
  simp [hg, strTruthy]

/-- C2 witness: the amended statement evaluated on the draw-80 scenario. -/
theorem claim2_witness :
    verifyConfig exp1 = true ∧
    initEvents exp1 ⟨[], "http://t", "", some false⟩ 80 =
      [Event.setCookie (cookieKey exp1) noVariationCookieValue] :=
  ⟨by decide,
   claim2_undefined_writes_sentinel exp1 ⟨[], "http://t", "", some false⟩ 80
     (by decide) (by decide) (by decide) (by decide)⟩

/-- C3 (counterexample): when `generateRedirectUrl` yields the sentinel, no
`setItem` call occurs at all: the sticky no-variation load produces an empty
effect list, not a sentinel write. -/
theorem claim3_counterexample :
    (generateRedirectUrl exp1 [("exp1", "novariation")] 10 "http://t"
      "").fst = some noVariationCookieValue ∧
    verifyConfig exp1 = true ∧
    isVariation exp1 "" = false ∧
    initEvents exp1 ⟨[("exp1", "novariation")], "http://t", "", none⟩ 10 =
      [] :=
  ⟨by decide, by decide, by decide, by decide⟩

/-- C3 (amended): on a DNT-off, valid-config, non-variation-page load on
which `generateRedirectUrl` yields the sentinel, `init` performs no
`setItem` call and no navigation: the browser state is unchanged (the
sentinel cookie necessarily was already in place). -/
theorem claim3_sentinel_result_no_effect (c : Config) (w : World)
    (rando : Int) (hd : w.dnt ≠ some true) (hv : verifyConfig c = true)
    (hq : isVariation c w.search = false)
    (hg : (generateRedirectUrl c w.cookies rando w.href w.search).fst =
      some noVariationCookieValue) :
    initEvents c w rando = [] ∧ init c w rando = w := by
  have he : initEvents c w rando = [] := by
    rw [initEvents_active c w rando hd hv hq]
    simp [hg, strTruthy, noVariationCookieValue]
  exact ⟨he, by rw [init, he]; rfl⟩

/-- C3 witness: the amended statement evaluated on the sticky no-variation
scenario. -/
theorem claim3_witness :
    verifyConfig exp1 = true ∧
    initEvents exp1 ⟨[("exp1", "novariation")], "http://t", "", none⟩ 10 =
      [] ∧
    init exp1 ⟨[("exp1", "novariation")], "http://t", "", none⟩ 10 =
      ⟨[("exp1", "novariation")], "http://t", "", none⟩ :=
  ⟨by decide,
   (claim3_sentinel_result_no_effect exp1
     ⟨[("exp1", "novariation")], "http://t", "", none⟩ 10 (by decide)
     (by decide) (by decide) (by decide)).1,
   (claim3_sentinel_result_no_effect exp1
     ⟨[("exp1", "novariation")], "http://t", "", none⟩ 10 (by decide)
     (by decide) (by decide) (by decide)).2⟩

/-- C9 (confirmed): when the do-not-track predicate is present and returns
true, `init` emits no effects and leaves the browser state (cookie store and
location) unchanged. -/
theorem claim9_dnt_noop (c : Config) (w : World) (rando : Int)
    (hd : w.dnt = some true) :
    initEvents c w rando = [] ∧ init c w rando = w := by
  have he : initEvents c w rando = [] := by
    unfold initEvents
    rw [hd]
    simp
  exact ⟨he, by rw [init, he]; rfl⟩

/-- C9 witness: the do-not-track no-op evaluated on a concrete world. -/
theorem claim9_witness :
    (⟨[("exp1", "v=1")], "http://t", "?a=1", some true⟩ : World).dnt =
      some true ∧
    initEvents exp1 ⟨[("exp1", "v=1")], "http://t", "?a=1", some true⟩ 10 =
      [] ∧
    init exp1 ⟨[("exp1", "v=1")], "http://t", "?a=1", some true⟩ 10 =
      ⟨[("exp1", "v=1")], "http://t", "?a=1", some true⟩ :=
  ⟨rfl, (claim9_dnt_noop exp1 _ 10 rfl).1, (claim9_dnt_noop exp1 _ 10 rfl).2⟩

/-- C5 (counterexample): the stored value v=1 is a key present in the
variations of a valid config, but its weight is zero, so the member access
is falsy and the value is not adopted: the call returns undefined instead of
a redirect URL containing v=1. -/
theorem claim5_counterexample :
    verifyConfig zeroWeightConfig = true ∧
    ("v=1", (0 : Int)) ∈ zeroWeightConfig.variations ∧
    ([("exp1", "v=1")] : CookieStore).lookup (cookieKey zeroWeightConfig) =
      some "v=1" ∧
    generateRedirectUrl zeroWeightConfig [("exp1", "v=1")] 10 "http://t"
      "" = (none, none) :=
  ⟨by decide, by decide, by decide, by decide⟩

/-- C5 (amended): a stored cookie value that is a nonempty variations key
with nonzero weight is adopted as the chosen variation for every draw, and
the returned redirect URL contains that token. -/
theorem claim5_sticky_variation (c : Config) (cookies : CookieStore)
    (rando : Int) (url qs stored : String)
    (hs : cookies.lookup (cookieKey c) = some stored)
    (hv : varTruthy c stored = true) (hne : stored ≠ "") :
    generateRedirectUrl c cookies rando url qs =
      (some (buildRedirect url qs stored), some stored) ∧
    stored.data <:+: (buildRedirect url qs stored).data := by
  constructor
  · rw [generateRedirectUrl_cookie c cookies rando url qs stored hs]
    simp [hv, finishRedirect, strTruthy, hne]
  · unfold buildRedirect
    split
    · exact ⟨(url ++ qs ++ "&").data, [],
        by simp [String.data_append, List.append_assoc]⟩
    · exact ⟨(url ++ "?").data, [],
        by simp [String.data_append, List.append_assoc]⟩

/-- C5 witness: the sticky-variation statement evaluated on the returning
visitor scenario of the design document (cookie exp1 set to v=2), at a draw
that would have missed the distribution. -/
theorem claim5_witness :
    ([("exp1", "v=2")] : CookieStore).lookup (cookieKey exp1) =
      some "v=2" ∧
    (generateRedirectUrl exp1 [("exp1", "v=2")] 90 "http://t" "" =
      (some (buildRedirect "http://t" "" "v=2"), some "v=2") ∧
    ("v=2" : String).data <:+: (buildRedirect "http://t" "" "v=2").data) :=
  ⟨by decide,
   claim5_sticky_variation exp1 [("exp1", "v=2")] 90 "http://t" "" "v=2"
     (by decide) (by decide) (by decide)⟩

/-- C6 (counterexample): in a valid config that declares the sentinel string
itself as a variation key with nonzero weight, a stored sentinel cookie is
adopted as a variation: a redirect URL is produced instead of the immediate
sentinel return. -/
theorem claim6_counterexample :
    verifyConfig sentinelKeyConfig = true ∧
    ([("exp1", "novariation")] : CookieStore).lookup
      (cookieKey sentinelKeyConfig) = some noVariationCookieValue ∧
    generateRedirectUrl sentinelKeyConfig [("exp1", "novariation")] 10
      "http://t" "" =
      (some "http://t?novariation", some "novariation") ∧
    (some "http://t?novariation" : Option String) ≠
      some noVariationCookieValue :=
  ⟨by decide, by decide, by decide, by decide⟩

/-- C6 (amended): when the stored cookie equals the sentinel and the
sentinel string is not itself a truthy variations entry,
`generateRedirectUrl` returns the sentinel immediately for every draw: it
never re-rolls and never produces a redirect URL. -/
theorem claim6_sentinel_sticky (c : Config) (cookies : CookieStore)
    (rando : Int) (url qs : String)
    (hs : cookies.lookup (cookieKey c) = some noVariationCookieValue)
    (hv : varTruthy c noVariationCookieValue = false) :
    generateRedirectUrl c cookies rando url qs =
      (some noVariationCookieValue, none) := by
  rw [generateRedirectUrl_cookie c cookies rando url qs _ hs]
  simp [hv]

/-- C6 witness: the sentinel stickiness evaluated on the example experiment
with the sticky no-variation cookie. -/
theorem claim6_witness :
    ([("exp1", "novariation")] : CookieStore).lookup (cookieKey exp1) =
      some noVariationCookieValue ∧
    varTruthy exp1 noVariationCookieValue = false ∧
    generateRedirectUrl exp1 [("exp1", "novariation")] 10 "http://t" "" =
      (some noVariationCookieValue, none) :=
  ⟨by decide, by decide,
   claim6_sentinel_sticky exp1 [("exp1", "novariation")] 10 "http://t" ""
     (by decide) (by decide)⟩

/-- Truthiness of the id field spelled out. -/
theorem strTruthy_id_iff (i : Option String) :
    strTruthy i = true ↔ ∃ s, i = some s ∧ s ≠ "" := by
  cases i with
  | none => simp [strTruthy]
  | some s => simp [strTruthy]

/-- Characterization of `verifyConfig`: true exactly when the id is a
nonempty string and the weight total is nonzero and at most 100. -/
theorem verifyConfig_iff (c : Config) :
    verifyConfig c = true ↔
      (∃ s, c.id = some s ∧ s ≠ "") ∧
      totalPercentage c ≠ 0 ∧ totalPercentage c ≤ 100 := by
  rw [← strTruthy_id_iff]
  unfold verifyConfig
  by_cases h1 : strTruthy c.id = true
  · by_cases h2 : totalPercentage c = 0
    · simp [h1, h2]
    · by_cases h3 : totalPercentage c > 100
      · simp [h1, h2, h3]
      · simp [h1, h2, h3]
        omega
  · simp [h1]

/-- C7 (counterexample): a negative weight total passes `verifyConfig`
although the claim requires rejection of every total that is not strictly
positive; and an empty-string id fails `verifyConfig` although the claim
accepts every string id with total in range. -/
theorem claim7_counterexample :
    totalPercentage negativeWeightConfig = -5 ∧
    verifyConfig negativeWeightConfig = true ∧
    emptyIdConfig.id = some "" ∧
    totalPercentage emptyIdConfig = 50 ∧
    verifyConfig emptyIdConfig = false :=
  ⟨by decide, by decide, by decide, by decide, by decide⟩

/-- C7 (amended): `verifyConfig` returns true exactly when the id is a
nonempty string and the weight total is nonzero and at most 100; in
particular totals strictly between 0 and 101 with a nonempty string id are
accepted, totals of 0 or above 100 are rejected, and negative totals are
accepted. -/
theorem claim7_verifyConfig_characterization (c : Config) :
    verifyConfig c = true ↔
      (∃ s, c.id = some s ∧ s ≠ "") ∧
      totalPercentage c ≠ 0 ∧ totalPercentage c ≤ 100 :=
  verifyConfig_iff c

/-- C10 (counterexample): when the zero-weight token stored in the cookie is
the sentinel string itself, `generateRedirectUrl` returns the sentinel (not
undefined) and `init` writes nothing at all. -/
theorem claim10_counterexample :
    verifyConfig zeroSentinelConfig = true ∧
    ("novariation", (0 : Int)) ∈ zeroSentinelConfig.variations ∧
    ([("exp1", "novariation")] : CookieStore).lookup
      (cookieKey zeroSentinelConfig) = some "novariation" ∧
    generateRedirectUrl zeroSentinelConfig [("exp1", "novariation")] 10
      "http://t" "" = (some noVariationCookieValue, none) ∧
    initEvents zeroSentinelConfig
      ⟨[("exp1", "novariation")], "http://t", "", none⟩ 10 = [] :=
  ⟨by decide, by decide, by decide, by decide, by decide⟩

/-- C10 (amended): on a valid config mapping a non-sentinel token to weight
zero, with that token stored in the cookie, `generateRedirectUrl` neither
adopts the stored variation nor performs a fresh draw and returns undefined,
and `init` (DNT off, non-variation page) overwrites the cookie with the
sentinel: the visitor is silently moved out of the stored bucket. -/
theorem claim10_zero_weight_evicted (c : Config) (w : World) (rando : Int)
    (stored : String) (hv : verifyConfig c = true)
    (hd : w.dnt ≠ some true) (hq : isVariation c w.search = false)
    (hc : w.cookies.lookup (cookieKey c) = some stored)
    (hw : c.variations.lookup stored = some 0)
    (hns : stored ≠ noVariationCookieValue) :
    generateRedirectUrl c w.cookies rando w.href w.search = (none, none) ∧
    initEvents c w rando =
      [Event.setCookie (cookieKey c) noVariationCookieValue] := by
  have hvt : varTruthy c stored = false := by
    unfold varTruthy
    rw [hw]
    simp
  have hg := generateRedirectUrl_stale c w.cookies rando w.href w.search
    stored hc hvt hns
  refine ⟨hg, ?_⟩
  rw [initEvents_active c w rando hd hv hq]
  simp [hg, strTruthy]

/-- C10 witness: the zero-weight eviction evaluated on the zero-weight
config with the cookie holding the zero-weight token. -/
theorem claim10_witness :
    verifyConfig zeroWeightConfig = true ∧
    zeroWeightConfig.variations.lookup "v=1" = some 0 ∧
    (generateRedirectUrl zeroWeightConfig [("exp1", "v=1")] 10 "http://t"
      "" = (none, none) ∧
    initEvents zeroWeightConfig ⟨[("exp1", "v=1")], "http://t", "", none⟩
      10 =
      [Event.setCookie (cookieKey zeroWeightConfig)
        noVariationCookieValue]) :=
  ⟨by decide, by decide,
   claim10_zero_weight_evicted zeroWeightConfig
     ⟨[("exp1", "v=1")], "http://t", "", none⟩ 10 "v=1" (by decide)
     (by decide) (by decide) (by decide) (by decide) (by decide)⟩

/-- Weight sum of a cons cell. -/
theorem sumWeights_cons (v : String) (w : Int) (l : List (String × Int)) :
    sumWeights ((v, w) :: l) = w + sumWeights l := by
  simp [sumWeights]

/-- When the assignment loop finds nothing, either there were no variations
or the draw exceeded the running total of all the weights. -/
theorem assignVariation_eq_none (vars : List (String × Int)) (rando t : Int)
    (h : assignVariation vars rando t = none) :
    vars = [] ∨ t + sumWeights vars < rando := by
  induction vars generalizing t with
  | nil => exact Or.inl rfl
  | cons p rest ih =>
    obtain ⟨v, w⟩ := p
    simp only [assignVariation] at h
    split at h
    · simp at h
    · rename_i hgt
      rcases ih (t + w) h with h0 | h0
      · subst h0
        refine Or.inr ?_
        have hs0 : sumWeights ([] : List (String × Int)) = 0 := rfl
        rw [sumWeights_cons, hs0]
        omega
      · refine Or.inr ?_
        rw [sumWeights_cons]
        omega

/-- When the assignment loop finds a variation, it is the first one in
insertion order whose cumulative upper bound reaches the draw. -/
theorem assignVariation_eq_some (vars : List (String × Int)) (rando t : Int)
    (v : String) (h : assignVariation vars rando t = some v) :
    ∃ pre w suf, vars = pre ++ (v, w) :: suf ∧
      rando ≤ t + sumWeights pre + w ∧
      ∀ pre2 v2 w2 suf2, pre = pre2 ++ (v2, w2) :: suf2 →
        t + sumWeights pre2 + w2 < rando := by
  induction vars generalizing t with
  | nil => simp [assignVariation] at h
  | cons p rest ih =>
    obtain ⟨v0, w0⟩ := p
    simp only [assignVariation] at h
    split at h
    · rename_i hle
      injection h with hv
      subst hv
      refine ⟨[], w0, rest, rfl, ?_, ?_⟩
      · have hs0 : sumWeights ([] : List (String × Int)) = 0 := rfl
        omega
      · intro pre2 v2 w2 suf2 hpre
        exact absurd hpre (by simp)
    · rename_i hgt
      obtain ⟨pre, w, suf, heq, hle, hfirst⟩ := ih (t + w0) h
      refine ⟨(v0, w0) :: pre, w, suf, by rw [heq]; rfl, ?_, ?_⟩
      · rw [sumWeights_cons]
        omega
      · intro pre2 v2 w2 suf2 hpre
        cases pre2 with
        | nil =>
          simp only [List.nil_append, List.cons.injEq, Prod.mk.injEq]
            at hpre
          obtain ⟨⟨hva, hwa⟩, -⟩ := hpre
          subst hva
          subst hwa
          have hs0 : sumWeights ([] : List (String × Int)) = 0 := rfl
          omega
        | cons q pre2t =>
          simp only [List.cons_append, List.cons.injEq] at hpre
          obtain ⟨hq0, hrest⟩ := hpre
          subst hq0
          have hlt := hfirst pre2t v2 w2 suf2 hrest
          rw [sumWeights_cons]
          omega

/-- For a draw within the configured total of a verified config the
assignment loop always finds a variation. -/
theorem assignVariation_exists (c : Config) (rando : Int)
    (hv : verifyConfig c = true) (hle : rando ≤ totalPercentage c) :
    ∃ v, assignVariation c.variations rando 0 = some v := by
  cases hass : assignVariation c.variations rando 0 with
  | some v => exact ⟨v, rfl⟩
  | none =>
    exfalso
    have hchar := (verifyConfig_iff c).mp hv
    rcases assignVariation_eq_none c.variations rando 0 hass with h0 | h0
    · have ht0 : totalPercentage c = 0 := by
        simp [totalPercentage, h0]
      exact hchar.2.1 ht0
    · have ht : totalPercentage c = sumWeights c.variations := rfl
      omega

/-- C4 (confirmed): with no cookie present, a draw above the configured
total assigns nothing and produces no redirect URL, while a draw within the
total assigns the first variation in insertion order whose cumulative upper
bound (running total plus its own weight) reaches the draw; in particular
the exp1 scenarios: draw 10 chooses v=1, draw 30 chooses v=2, draw 80
chooses no variation. -/
theorem claim4_fresh_draw (c : Config) (cookies : CookieStore) (rando : Int)
    (url qs : String) (hnc : cookies.lookup (cookieKey c) = none)
    (hv : verifyConfig c = true) (h1 : 1 ≤ rando) (h100 : rando ≤ 100) :
    (totalPercentage c < rando →
      generateRedirectUrl c cookies rando url qs = (none, none)) ∧
    (rando ≤ totalPercentage c →
      ∃ v, FirstCumHit c.variations rando v ∧
        (generateRedirectUrl c cookies rando url qs).snd = some v) ∧
    generateRedirectUrl exp1 [] 10 "http://t" "" =
      (some "http://t?v=1", some "v=1") ∧
    generateRedirectUrl exp1 [] 30 "http://t" "" =
      (some "http://t?v=2", some "v=2") ∧
    generateRedirectUrl exp1 [] 80 "http://t" "" = (none, none) := by
  refine ⟨?_, ?_, by decide, by decide, by decide⟩
  · intro hgt
    rw [generateRedirectUrl_nocookie c cookies rando url qs hnc]
    have hnle : ¬ (rando ≤ totalPercentage c) := by omega
    simp [hnle, finishRedirect, strTruthy]
  · intro hle
    obtain ⟨v, hass⟩ := assignVariation_exists c rando hv hle
    refine ⟨v, ?_, ?_⟩
    · obtain ⟨pre, w, suf, heq, hle2, hfirst⟩ :=
        assignVariation_eq_some c.variations rando 0 v hass
      refine ⟨pre, w, suf, heq, by omega, ?_⟩
      intro pre2 v2 w2 suf2 hpre
      have hlt := hfirst pre2 v2 w2 suf2 hpre
      omega
    · rw [generateRedirectUrl_nocookie c cookies rando url qs hnc]
      simp [hle, hass, finishRedirect_snd]

/-- C4 witness: the fresh-draw statement evaluated at draw 10 on the exp1
experiment with an empty cookie store. -/
theorem claim4_witness :
    ([] : CookieStore).lookup (cookieKey exp1) = none ∧
    verifyConfig exp1 = true ∧
    ((totalPercentage exp1 < 10 →
      generateRedirectUrl exp1 [] 10 "http://t" "" = (none, none)) ∧
    (10 ≤ totalPercentage exp1 →
      ∃ v, FirstCumHit exp1.variations 10 v ∧
        (generateRedirectUrl exp1 [] 10 "http://t" "").snd = some v) ∧
    generateRedirectUrl exp1 [] 10 "http://t" "" =
      (some "http://t?v=1", some "v=1") ∧
    generateRedirectUrl exp1 [] 30 "http://t" "" =
      (some "http://t?v=2", some "v=2") ∧
    generateRedirectUrl exp1 [] 80 "http://t" "" = (none, none)) :=
  ⟨rfl, by decide,
   claim4_fresh_draw exp1 [] 10 "http://t" "" rfl (by decide) (by decide)
     (by decide)⟩

/-- The substring check agrees with list-level infix containment. -/
theorem containsSubstring_iff (hay needle : String) :
    containsSubstring hay needle = true ↔ needle.data <:+: hay.data := by
  simp [containsSubstring]

/-- C8 (confirmed): `isVariation` returns true exactly when some configured
variation token occurs in the query string immediately preceded by a
question mark or an ampersand; a token occurring without such an introducer
does not count, and with no matching token the result is false. -/
theorem claim8_isVariation_iff (c : Config) (qs : String) :
    isVariation c qs = true ↔
      ∃ v, (∃ w, (v, w) ∈ c.variations) ∧
        ((∃ pre suf, qs.data = pre ++ '?' :: v.data ++ suf) ∨
         (∃ pre suf, qs.data = pre ++ '&' :: v.data ++ suf)) := by
  have hqm : ("?" : String).data = ['?'] := rfl
  have ham : ("&" : String).data = ['&'] := rfl
  unfold isVariation
  rw [List.any_eq_true]
  constructor
  · rintro ⟨⟨v, w⟩, hmem, hp⟩
    rw [Bool.or_eq_true, containsSubstring_iff, containsSubstring_iff]
      at hp
    refine ⟨v, ⟨w, hmem⟩, ?_⟩
    rcases hp with h | h
    · obtain ⟨s, t, hst⟩ := h
      refine Or.inl ⟨s, t, ?_⟩
      rw [← hst]
      simp [String.data_append, hqm, List.append_assoc]
    · obtain ⟨s, t, hst⟩ := h
      refine Or.inr ⟨s, t, ?_⟩
      rw [← hst]
      simp [String.data_append, ham, List.append_assoc]
  · rintro ⟨v, ⟨w, hmem⟩, hp⟩
    refine ⟨(v, w), hmem, ?_⟩
    rw [Bool.or_eq_true, containsSubstring_iff, containsSubstring_iff]
    rcases hp with ⟨pre, suf, h⟩ | ⟨pre, suf, h⟩
    · refine Or.inl ⟨pre, suf, ?_⟩
      rw [h]
      simp [String.data_append, hqm, List.append_assoc]
    · refine Or.inr ⟨pre, suf, ?_⟩
      rw [h]
      simp [String.data_append, ham, List.append_assoc]

end TrafficCop
